import Mathlib

/-!
Verification of the vingd-api-python request/response core against its
natural-language specification.  The definitions below are shallow
embeddings of the Python source:

* `src/vingd/response.py`  — the `Codes` status-code registry;
* `src/vingd/exceptions.py` — the typed error taxonomy
  (`GeneralException` and its subclasses, each with its default
  context label and status code);
* `src/vingd/client.py`, `Vingd.request` — the precondition checks
  (credentials, https scheme) and the response-classification tail
  (JSON parse, 2xx `data` extraction, error-envelope dispatch);
* `src/vingd/client.py`, `Vingd._extract_id_from_batch_response`;
* `src/vingd/client.py`, `Vingd.get_vouchers` — resource path building;
* `src/vingd/util.py`, `parse_duration` and `safeformat`.

JSON values are modelled with integer numerics (the fragment exercised
by the library's envelopes); Python `dict`s parsed from JSON are
association lists with distinct keys, `dict` lookup is association
lookup.  Python exceptions are modelled with an `Except` result type
whose error side distinguishes the library's typed errors from plain
untyped Python exceptions (`Exception`, `KeyError`, `IndexError`,
`TypeError`, `ValueError`).
-/

/-- JSON value, as produced by `json.loads` in `client.py` (numbers
restricted to the integers, the only numerics the claims exercise). -/
inductive Json where
  | null : Json
  | bool (b : Bool) : Json
  | num (n : Int) : Json
  | str (s : String) : Json
  | arr (items : List Json) : Json
  | obj (fields : List (String × Json)) : Json

/-- Association-list lookup, modelling Python `dict` key access on a
dict decoded from JSON. -/
def lookupField : List (String × Json) → String → Option Json
  | [], _ => none
  | (k, v) :: rest, key => if k = key then some v else lookupField rest key

/-- Python `content[key]` on a parsed JSON value: association lookup on
objects, no result (and hence a raised exception at the call site) on
any other shape. -/
def jget (j : Json) (key : String) : Option Json :=
  match j with
  | .obj fields => lookupField fields key
  | _ => none

/-- Python truthiness of a JSON value (`if r['errors']:` in
`client.py`). -/
def jtruthy : Json → Bool
  | .null => false
  | .bool b => b
  | .num n => n != 0
  | .str s => s != ""
  | .arr l => !l.isEmpty
  | .obj f => !f.isEmpty

namespace Codes

/-- Status code from `response.py` (`Codes.BAD_REQUEST`). -/
def BAD_REQUEST : Nat := 400

/-- Status code from `response.py` (`Codes.FORBIDDEN`). -/
def FORBIDDEN : Nat := 403

/-- Status code from `response.py` (`Codes.NOT_FOUND`). -/
def NOT_FOUND : Nat := 404

/-- Status code from `response.py` (`Codes.CONFLICT`). -/
def CONFLICT : Nat := 409

/-- Status code from `response.py` (`Codes.INTERNAL_SERVER_ERROR`). -/
def INTERNAL_SERVER_ERROR : Nat := 500

end Codes

/-- The class of a typed error from `exceptions.py`: `GeneralException`
or one of its four subclasses. -/
inductive ErrKind where
  | general : ErrKind
  | invalidData : ErrKind
  | forbidden : ErrKind
  | notFound : ErrKind
  | internalError : ErrKind
deriving DecidableEq

/-- A typed error value from `exceptions.py`: every class stores `msg`,
`context` and `code` (message and context are arbitrary Python values
in the source; here, JSON values, which include strings). -/
structure VingdError where
  kind : ErrKind
  msg : Json
  context : Json
  code : Nat

/-- Constructor `GeneralException(msg, context, code)`; the Python
defaults are `context="Error"`, `code=Codes.CONFLICT`, written out
explicitly at each call site below. -/
def mkGeneral (msg context : Json) (code : Nat) : VingdError :=
  ⟨.general, msg, context, code⟩

/-- Constructor `InvalidData(msg, context)` with its fixed code
`Codes.BAD_REQUEST`; the Python default context is `"Invalid data"`. -/
def mkInvalidData (msg context : Json) : VingdError :=
  ⟨.invalidData, msg, context, Codes.BAD_REQUEST⟩

/-- Constructor `Forbidden(msg, context)` with its fixed code
`Codes.FORBIDDEN`. -/
def mkForbidden (msg context : Json) : VingdError :=
  ⟨.forbidden, msg, context, Codes.FORBIDDEN⟩

/-- Constructor `NotFound(msg, context)` with its fixed code
`Codes.NOT_FOUND`. -/
def mkNotFound (msg context : Json) : VingdError :=
  ⟨.notFound, msg, context, Codes.NOT_FOUND⟩

/-- Constructor `InternalError(msg, context)` with its fixed code
`Codes.INTERNAL_SERVER_ERROR`. -/
def mkInternalError (msg context : Json) : VingdError :=
  ⟨.internalError, msg, context, Codes.INTERNAL_SERVER_ERROR⟩

/-- Response classifier: the tail of `Vingd.request` (client.py lines
80-108).  `code` is the HTTP status, `raw` the raw response text, and
`parsed` the outcome of `json.loads(raw)` (`none` when parsing raised).
Mirrors the source: non-JSON body raises
`GeneralException(content, 'Non-JSON server response', code)`; a 2xx
status returns `content['data']` or raises `InvalidData` when the
lookup fails; otherwise `message`/`context` are read (raising
`InvalidData` when either lookup fails) and the status is dispatched
over the five registered codes, with a final catch-all
`GeneralException(message, context, code)`. -/
def classify (code : Nat) (raw : String) (parsed : Option Json) : Except VingdError Json :=
  match parsed with
  | none => .error (mkGeneral (.str raw) (.str "Non-JSON server response") code)
  | some content =>
    if 200 ≤ code ∧ code ≤ 299 then
      match jget content "data" with
      | some d => .ok d
      | none => .error (mkInvalidData (.str "Invalid server DATA response format!") (.str "Invalid data"))
    else
      match jget content "message", jget content "context" with
      | some message, some context =>
        if code = Codes.BAD_REQUEST then .error (mkInvalidData message context)
        else if code = Codes.FORBIDDEN then .error (mkForbidden message context)
        else if code = Codes.NOT_FOUND then .error (mkNotFound message context)
        else if code = Codes.INTERNAL_SERVER_ERROR then .error (mkInternalError message context)
        else if code = Codes.CONFLICT then .error (mkGeneral message context Codes.CONFLICT)
        else .error (mkGeneral message context code)
      | _, _ => .error (mkInvalidData (.str "Invalid server ERROR response format!") (.str "Invalid data"))

/-- C1: for every non-2xx status with a well-formed error envelope
holding both `message` and `context`, the classifier raises exactly one
typed error determined by the status: 400 raises `InvalidData`, 403
`Forbidden`, 404 `NotFound`, 500 `InternalError`, 409
`GeneralException`, and every other status raises `GeneralException`
carrying that numeric status code. -/
theorem classify_error_dispatch
    (code : Nat) (raw : String) (body : Json) (message context : Json)
    (hm : jget body "message" = some message)
    (hc : jget body "context" = some context)
    (hnot2xx : ¬(200 ≤ code ∧ code ≤ 299)) :
    classify code raw (some body) = .error
      (if code = 400 then mkInvalidData message context
       else if code = 403 then mkForbidden message context
       else if code = 404 then mkNotFound message context
       else if code = 500 then mkInternalError message context
       else if code = 409 then mkGeneral message context 409
       else mkGeneral message context code) := by
  simp only [classify, hnot2xx, if_false, hm, hc, Codes.BAD_REQUEST,
    Codes.FORBIDDEN, Codes.NOT_FOUND, Codes.INTERNAL_SERVER_ERROR, Codes.CONFLICT]
  split_ifs <;> rfl

/-- Witness for C1: status 402 (outside the five registered error
codes) yields a `GeneralException` carrying 402. -/
theorem classify_error_dispatch_witness :
    classify 402 "" (some (Json.obj [("message", Json.str "m"), ("context", Json.str "c")]))
      = .error (mkGeneral (Json.str "m") (Json.str "c") 402) := by
  have h := classify_error_dispatch 402 ""
    (Json.obj [("message", Json.str "m"), ("context", Json.str "c")])
    (Json.str "m") (Json.str "c") rfl rfl (by decide)
  exact h

/-- C2: the classifier on an unparseable body raises a generic error
carrying the raw body and status; on a 2xx status with a `data` field
it returns that field unchanged; on a 2xx status without `data` it
raises an invalid-data error; on a non-2xx status with `message` or
`context` absent it raises an invalid-data error. -/
theorem classify_envelope_handling :
    (∀ (code : Nat) (raw : String),
      classify code raw none
        = .error (mkGeneral (.str raw) (.str "Non-JSON server response") code))
    ∧ (∀ (code : Nat) (raw : String) (body d : Json),
        200 ≤ code → code ≤ 299 → jget body "data" = some d →
        classify code raw (some body) = .ok d)
    ∧ (∀ (code : Nat) (raw : String) (body : Json),
        200 ≤ code → code ≤ 299 → jget body "data" = none →
        classify code raw (some body)
          = .error (mkInvalidData (.str "Invalid server DATA response format!") (.str "Invalid data")))
    ∧ (∀ (code : Nat) (raw : String) (body : Json),
        ¬(200 ≤ code ∧ code ≤ 299) →
        (jget body "message" = none ∨ jget body "context" = none) →
        classify code raw (some body)
          = .error (mkInvalidData (.str "Invalid server ERROR response format!") (.str "Invalid data"))) := by
  refine ⟨fun code raw => rfl, fun code raw body d h1 h2 hd => ?_,
    fun code raw body h1 h2 hd => ?_, fun code raw body hn habs => ?_⟩
  · simp only [classify, if_pos (And.intro h1 h2), hd]
  · simp only [classify, if_pos (And.intro h1 h2), hd]
  · rcases habs with hmsg | hctx
    · simp only [classify, hn, if_false, hmsg]
    · simp only [classify, hn, if_false, hctx]
      rcases hm : jget body "message" with _ | m <;> simp

/-- Witness for C2: a 2xx envelope with a `data` field returns that
field, applied at status 200 and payload `7`. -/
theorem classify_envelope_handling_witness :
    classify 200 "" (some (Json.obj [("data", Json.num 7)])) = .ok (Json.num 7) :=
  classify_envelope_handling.2.1 200 "" (Json.obj [("data", Json.num 7)]) (Json.num 7)
    (by decide) (by decide) rfl

/-- Failure raised out of a client call: either a plain untyped Python
exception (`raise Exception(...)` and builtin `KeyError`, `IndexError`,
`TypeError`, `ValueError`), or one of the library's typed errors from
`exceptions.py`. -/
inductive Failure where
  | exc (msg : String) : Failure
  | typed (e : VingdError) : Failure
  | keyError : Failure
  | indexError : Failure
  | typeError : Failure
  | valueError : Failure

/-- True exactly on the library's typed errors (instances of
`GeneralException` and subclasses). -/
def Failure.isTyped : Failure → Bool
  | .typed _ => true
  | _ => false

/-- Outcome of the one network round trip in `Vingd.request`: either a
completed response (status, raw body, and the result of parsing the
body as JSON, `none` when `json.loads` raises) or a raised
`httplib.HTTPException`. -/
inductive NetOutcome where
  | ok (status : Nat) (body : String) (parsed : Option Json) : NetOutcome
  | httpExc : NetOutcome

/-- Python truthiness of an optional string attribute
(`not self.api_key`): unset and empty both count as false. -/
def optTruthy : Option String → Bool
  | none => false
  | some s => s != ""

/-- The `Vingd.request` pipeline (client.py lines 58-108): credential
check, https-scheme check, then the single transport call and the
response classifier.  `scheme` is `urlparse(self.api_endpoint).scheme`;
the transport (host, path joining, auth header, connection) is
abstracted into the `net` oracle, consulted only after both checks
pass.  The two precondition failures are plain `raise Exception(...)`
in the source; a transport failure raises the typed
`InternalError(...)`. -/
def requestModel (key secret : Option String) (scheme : String)
    (net : Unit → NetOutcome) : Except Failure Json :=
  if optTruthy key = false ∨ optTruthy secret = false then
    .error (.exc "Vingd authentication credentials undefined.")
  else if scheme ≠ "https" then
    .error (.exc "Invalid Vingd endpoint URL (non-https).")
  else
    match net () with
    | .httpExc => .error (.typed (mkInternalError
        (.str "HTTP request failed! (Network error? Installation error?)")
        (.str "Internal error")))
    | .ok code body parsed =>
      match classify code body parsed with
      | .ok d => .ok d
      | .error e => .error (.typed e)

/-- Counterexample for C3: with unset credentials the call does fail
immediately, but with a plain untyped `Exception` carrying only a
message — not with one of the library's typed error values (which
would carry a context label and a status code). -/
theorem request_untyped_config_error_counterexample :
    requestModel none none "https" (fun _ => NetOutcome.httpExc)
      = .error (.exc "Vingd authentication credentials undefined.")
    ∧ Failure.isTyped (.exc "Vingd authentication credentials undefined.") = false :=
  ⟨rfl, rfl⟩

/-- C3 (amended): for unset/empty credentials or a non-https endpoint
scheme, `Vingd.request` fails immediately, before any network activity
(the result is independent of the transport oracle), but the failure is
a plain untyped exception carrying only a message, not one of the
library's typed error values. -/
theorem request_precheck_fails_before_network
    (key secret : Option String) (scheme : String)
    (net net' : Unit → NetOutcome)
    (h : optTruthy key = false ∨ optTruthy secret = false ∨ scheme ≠ "https") :
    (∃ m, requestModel key secret scheme net = .error (.exc m)
      ∧ Failure.isTyped (.exc m) = false)
    ∧ requestModel key secret scheme net = requestModel key secret scheme net' := by
  by_cases hcred : optTruthy key = false ∨ optTruthy secret = false
  · refine ⟨⟨"Vingd authentication credentials undefined.", ?_, rfl⟩, ?_⟩ <;>
      simp only [requestModel, if_pos hcred]
  · have hscheme : scheme ≠ "https" := by
      rcases h with h1 | h2 | h3
      · exact absurd (Or.inl h1) hcred
      · exact absurd (Or.inr h2) hcred
      · exact h3
    refine ⟨⟨"Invalid Vingd endpoint URL (non-https).", ?_, rfl⟩, ?_⟩ <;>
      simp only [requestModel, if_neg hcred, if_pos hscheme]

/-- Witness for C3's amended theorem: unset credentials, two different
transport oracles, same immediate untyped failure. -/
theorem request_precheck_fails_before_network_witness :
    (∃ m, requestModel none none "https" (fun _ => NetOutcome.httpExc) = .error (.exc m)
      ∧ Failure.isTyped (.exc m) = false)
    ∧ requestModel none none "https" (fun _ => NetOutcome.httpExc)
        = requestModel none none "https" (fun _ => NetOutcome.ok 200 "" none) :=
  request_precheck_fails_before_network none none "https"
    (fun _ => NetOutcome.httpExc) (fun _ => NetOutcome.ok 200 "" none) (Or.inl rfl)

/-- Decimal value of a digit run, as Python `int` applied to the
matched group text. -/
def digitsToNat (ds : List Char) : Nat :=
  ds.foldl (fun a c => a * 10 + (c.toNat - '0'.toNat)) 0

/-- Greedy `\d+` at the head of the input: the maximal non-empty digit
run and the remaining input, or nothing when no digit leads. -/
def parseNum (cs : List Char) : Option (Nat × List Char) :=
  if (cs.takeWhile Char.isDigit).isEmpty then none
  else some (digitsToNat (cs.takeWhile Char.isDigit), cs.dropWhile Char.isDigit)

/-- One optional duration component `(?:(\d+)X)?` of the pattern-1
regex in `parse_duration` (util.py lines 98-102): a digit run followed
by the unit letter, consumed greedily, or left untouched when the group
cannot participate.  This deterministic reading agrees with the regex:
the letter after `\d+` is never a digit, so the greedy digit run never
backtracks, and skipping a matchable group can never lead to an overall
match (the following groups and the anchors all reject a leading
digit). -/
def parseComp (letter : Char) (cs : List Char) : Option Nat × List Char :=
  match parseNum cs with
  | none => (none, cs)
  | some (n, rest) =>
    match rest with
    | c :: rest2 => if c = letter then (some n, rest2) else (none, cs)
    | [] => (none, cs)

/-- The six named groups of the pattern-1 regex of `parse_duration`
(`years`, `months`, `days`, `hours`, `minutes`, `seconds`); `none`
marks a group that did not participate in the match. -/
structure P1Groups where
  years : Option Nat
  months : Option Nat
  days : Option Nat
  hours : Option Nat
  minutes : Option Nat
  seconds : Option Nat
deriving DecidableEq

/-- Pattern 1 of `parse_duration`:
`^P(?:(?:(\d+)Y)?(?:(\d+)M)?(?:(\d+)D)?)?(?:T(?:(\d+)H)?(?:(\d+)M)?(?:(\d+)S)?)?$`
over the preprocessed input, returning the groups on a match. -/
def pattern1 (cs : List Char) : Option P1Groups :=
  match cs with
  | 'P' :: rest =>
    match (parseComp 'D' (parseComp 'M' (parseComp 'Y' rest).2).2).2 with
    | 'T' :: r4 =>
      if (parseComp 'S' (parseComp 'M' (parseComp 'H' r4).2).2).2 = [] then
        some ⟨(parseComp 'Y' rest).1,
              (parseComp 'M' (parseComp 'Y' rest).2).1,
              (parseComp 'D' (parseComp 'M' (parseComp 'Y' rest).2).2).1,
              (parseComp 'H' r4).1,
              (parseComp 'M' (parseComp 'H' r4).2).1,
              (parseComp 'S' (parseComp 'M' (parseComp 'H' r4).2).2).1⟩
      else none
    | [] =>
      some ⟨(parseComp 'Y' rest).1,
            (parseComp 'M' (parseComp 'Y' rest).2).1,
            (parseComp 'D' (parseComp 'M' (parseComp 'Y' rest).2).2).1,
            none, none, none⟩
    | _ :: _ => none
  | _ => none

/-- Pattern 2 of `parse_duration`: `^P(?P<weeks>\d+)W$`. -/
def pattern2 (cs : List Char) : Option Nat :=
  match cs with
  | 'P' :: rest =>
    match parseNum rest with
    | some (n, r) => match r with
      | ['W'] => some n
      | _ => none
    | none => none
  | _ => none

/-- Exactly `n` leading digits (`\d{n}`), with value and remainder. -/
def takeDigits (n : Nat) (cs : List Char) : Option (Nat × List Char) :=
  if (cs.take n).length = n ∧ (cs.take n).all Char.isDigit then
    some (digitsToNat (cs.take n), cs.drop n)
  else none

/-- A conditional separator `(?(2)c)` of the pattern-3 regex: when the
extended format was selected the character `c` is required, otherwise
nothing is consumed. -/
def expectIf (ext : Bool) (c : Char) (cs : List Char) : Option (List Char) :=
  if ext then
    match cs with
    | c2 :: rest => if c2 = c then some rest else none
    | [] => none
  else some cs

/-- Pattern 3 of `parse_duration`:
`^P(\d{4})(-)?(\d{2})(?(2)-)(\d{2})T(\d{2})(?(2):)(\d{2})(?(2):)(\d{2})$`,
the basic/extended absolute stamp.  The optional `(-)?` commits
deterministically: when the regex backtracks on it, the following
`\d{2}` immediately rejects the dash, so no alternative match exists. -/
def pattern3 (cs : List Char) : Option (Nat × Nat × Nat × Nat × Nat × Nat) :=
  match cs with
  | 'P' :: r0 =>
    match takeDigits 4 r0 with
    | some (y, r1) =>
      let ext : Bool := r1.head? = some '-'
      match takeDigits 2 (if ext then r1.drop 1 else r1) with
      | some (mo, r2) =>
        match expectIf ext '-' r2 with
        | some r2b =>
          match takeDigits 2 r2b with
          | some (d, r3) =>
            match r3 with
            | 'T' :: r4 =>
              match takeDigits 2 r4 with
              | some (h, r5) =>
                match expectIf ext ':' r5 with
                | some r5b =>
                  match takeDigits 2 r5b with
                  | some (mi, r6) =>
                    match expectIf ext ':' r6 with
                    | some r6b =>
                      match takeDigits 2 r6b with
                      | some (s, r7) =>
                        if r7 = [] then some (y, mo, d, h, mi, s) else none
                      | none => none
                    | none => none
                  | none => none
                | none => none
              | none => none
            | _ => none
          | none => none
        | none => none
      | none => none
    | none => none
  | _ => none

/-- Input normalization of `parse_duration`:
`string.replace(' ', '').upper()` (ASCII fragment). -/
def preprocess (s : String) : List Char :=
  (s.data.filter (fun c => c ≠ ' ')).map Char.toUpper

/-- The result mapping of `parse_duration`, over its fixed key universe
`years/months/weeks/days/hours/minutes/seconds`; a `none` field models
a key absent from the returned Python dict. -/
structure Duration where
  years : Option Nat
  months : Option Nat
  weeks : Option Nat
  days : Option Nat
  hours : Option Nat
  minutes : Option Nat
  seconds : Option Nat
deriving DecidableEq

/-- The empty dict returned by `parse_duration` when no pattern
matches. -/
def emptyDuration : Duration := ⟨none, none, none, none, none, none, none⟩

/-- The `parse_duration` function of util.py lines 95-125: preprocess,
try the three patterns in order, and build the dict with
`match.groupdict(0)` — which binds every named group of the matched
pattern, defaulting groups that did not participate to `0`. -/
def parse_duration (s : String) : Duration :=
  match pattern1 (preprocess s) with
  | some g =>
    ⟨some (g.years.getD 0), some (g.months.getD 0), none, some (g.days.getD 0),
     some (g.hours.getD 0), some (g.minutes.getD 0), some (g.seconds.getD 0)⟩
  | none =>
    match pattern2 (preprocess s) with
    | some w => ⟨none, none, some w, none, none, none, none⟩
    | none =>
      match pattern3 (preprocess s) with
      | some (y, mo, d, h, mi, s2) =>
        ⟨some y, some mo, none, some d, some h, some mi, some s2⟩
      | none => emptyDuration

/-- Counterexample for C4: on the claim's own example string
`"P1Y2M3D"` the result also binds `hours`, `minutes` and `seconds`
(to 0, via `groupdict(0)`), so it is not the claimed mapping that
contains only the matched units. -/
theorem parse_duration_extra_zero_components_counterexample :
    parse_duration "P1Y2M3D"
      = ⟨some 1, some 2, none, some 3, some 0, some 0, some 0⟩
    ∧ parse_duration "P1Y2M3D"
      ≠ ⟨some 1, some 2, none, some 3, none, none, none⟩ := by
  constructor
  · rfl
  · decide

/-- C4 (amended): a pattern-1 match binds all six of its named units,
with units absent from the string defaulted to 0 (`groupdict(0)`), so
`parse_duration("P1Y2M3D")` is
`{years:1, months:2, days:3, hours:0, minutes:0, seconds:0}`; a
pattern-2 match contains only `weeks`
(`parse_duration("P2W") = {weeks:2}`); and when no pattern matches the
result is the empty mapping, not an error
(`parse_duration("garbage") = {}`). -/
theorem parse_duration_results :
    parse_duration "P1Y2M3D"
      = ⟨some 1, some 2, none, some 3, some 0, some 0, some 0⟩
    ∧ parse_duration "P2W" = ⟨none, none, some 2, none, none, none, none⟩
    ∧ parse_duration "garbage" = emptyDuration
    ∧ ∀ s, pattern1 (preprocess s) = none → pattern2 (preprocess s) = none →
        pattern3 (preprocess s) = none → parse_duration s = emptyDuration := by
  refine ⟨rfl, rfl, rfl, fun s h1 h2 h3 => ?_⟩
  simp only [parse_duration, h1, h2, h3]

/-- Witness for C4's amended theorem: the no-match branch at the
concrete input `"x"`. -/
theorem parse_duration_results_witness : parse_duration "x" = emptyDuration :=
  parse_duration_results.2.2.2 "x" rfl rfl rfl

/-- C5: whenever duration pattern 1 matches, every numeric component of
the result is a (non-negative) natural number, each of the six
components is bound exactly once, and components absent from the string
default to 0: the resulting mapping binds all of years, months, days,
hours, minutes and seconds (and not weeks). -/
theorem pattern1_binds_all_components (s : String) (g : P1Groups)
    (h : pattern1 (preprocess s) = some g) :
    parse_duration s
      = ⟨some (g.years.getD 0), some (g.months.getD 0), none,
         some (g.days.getD 0), some (g.hours.getD 0), some (g.minutes.getD 0),
         some (g.seconds.getD 0)⟩ := by
  simp only [parse_duration, h]

/-- Witness for C5: the string `"P1Y"`, whose pattern-1 match binds
years to 1 and defaults the five other components to 0. -/
theorem pattern1_binds_all_components_witness :
    parse_duration "P1Y" = ⟨some 1, some 0, none, some 0, some 0, some 0, some 0⟩ :=
  pattern1_binds_all_components "P1Y" ⟨some 1, none, none, none, none, none⟩ rfl

/-- The remainder returned by `parseNum` is a suffix of its input. -/
theorem parseNum_suffix {cs rest : List Char} {n : Nat}
    (h : parseNum cs = some (n, rest)) : rest <:+ cs := by
  unfold parseNum at h
  split at h
  · exact absurd h (by simp)
  · simp only [Option.some.injEq, Prod.mk.injEq] at h
    exact h.2 ▸ List.dropWhile_suffix Char.isDigit

/-- The remainder returned by `parseComp` is a suffix of its input. -/
theorem parseComp_suffix (letter : Char) (cs : List Char) :
    (parseComp letter cs).2 <:+ cs := by
  unfold parseComp
  split
  · exact List.suffix_refl cs
  next n rest heq =>
    split
    next c rest2 =>
      split
      · exact (List.suffix_cons c rest2).trans (parseNum_suffix heq)
      · exact List.suffix_refl cs
    · exact List.suffix_refl cs

/-- Counterexample for C6: the string `"PT"` matches pattern 1 with the
`T` separator present and not a single time component matched (all
three time groups did not participate), refuting the claimed
equivalence in the `T`-implies-time-component direction. -/
theorem pattern1_t_without_time_counterexample :
    pattern1 ('P' :: 'T' :: []) = some ⟨none, none, none, none, none, none⟩
    ∧ 'T' ∈ ('P' :: 'T' :: [])
    ∧ parse_duration "PT" = ⟨some 0, some 0, none, some 0, some 0, some 0, some 0⟩ :=
  ⟨rfl, by decide, rfl⟩

/-- C6 (amended): in pattern 1 the leading `P` is mandatory for every
matching string, and whenever a time component (hours, minutes or
seconds) is matched the `T` separator is present in the string; the
converse fails, since `T` may also be present with no time component at
all, as the matching string `"PT"` shows. -/
theorem pattern1_p_and_t_structure :
    (∀ (cs : List Char) (g : P1Groups), pattern1 cs = some g → cs.head? = some 'P')
    ∧ (∀ (cs : List Char) (g : P1Groups), pattern1 cs = some g →
        (g.hours.isSome ∨ g.minutes.isSome ∨ g.seconds.isSome) → 'T' ∈ cs)
    ∧ pattern1 ('P' :: 'T' :: []) = some ⟨none, none, none, none, none, none⟩ := by
  refine ⟨fun cs g h => ?_, fun cs g h htime => ?_, rfl⟩
  · unfold pattern1 at h
    split at h
    · simp
    · exact absurd h (by simp)
  · unfold pattern1 at h
    split at h
    next rest =>
      split at h
      next r4 heq =>
        have hsub : ('T' :: r4) <:+ rest := by
          calc ('T' :: r4)
              = (parseComp 'D' (parseComp 'M' (parseComp 'Y' rest).2).2).2 := heq.symm
            _ <:+ (parseComp 'M' (parseComp 'Y' rest).2).2 := parseComp_suffix 'D' _
            _ <:+ (parseComp 'Y' rest).2 := parseComp_suffix 'M' _
            _ <:+ rest := parseComp_suffix 'Y' rest
        exact List.mem_cons_of_mem 'P' (hsub.subset (List.mem_cons_self 'T' r4))
      next heq =>
        simp only [Option.some.injEq] at h
        subst h
        simp at htime
      · exact absurd h (by simp)
    · exact absurd h (by simp)

/-- Witness for C6's amended theorem: both quantified parts applied at
concrete matching strings (`"P"` for the mandatory leading `P`,
`"PT1H"` for a matched hours component forcing the `T`). -/
theorem pattern1_p_and_t_structure_witness :
    ('P' :: []).head? = some 'P' ∧ 'T' ∈ ('P' :: 'T' :: '1' :: 'H' :: []) := by
  constructor
  · exact pattern1_p_and_t_structure.1 ('P' :: []) ⟨none, none, none, none, none, none⟩ rfl
  · exact pattern1_p_and_t_structure.2.1 ('P' :: 'T' :: '1' :: 'H' :: [])
      ⟨none, none, none, some 1, none, none⟩ rfl (Or.inl rfl)

/-- A Python argument value passed to `safeformat` (the claims exercise
ints and strings). -/
inductive PyVal where
  | int (n : Int) : PyVal
  | str (s : String) : PyVal

/-- Python `str(x)` on a `safeformat` argument. -/
def pyStr : PyVal → String
  | .int n => toString n
  | .str s => s

/-- Python `int(s)` on a string: surrounding whitespace stripped,
optional sign, then a non-empty digit run; `ValueError` otherwise
(modelled as no result). -/
def parseIntString (s : String) : Option Int :=
  match (((s.data.dropWhile Char.isWhitespace).reverse.dropWhile
      Char.isWhitespace).reverse : List Char) with
  | '-' :: ds =>
    if ds ≠ [] ∧ ds.all Char.isDigit then some (-(digitsToNat ds : Int)) else none
  | '+' :: ds =>
    if ds ≠ [] ∧ ds.all Char.isDigit then some ((digitsToNat ds : Int)) else none
  | ds =>
    if ds ≠ [] ∧ ds.all Char.isDigit then some ((digitsToNat ds : Int)) else none

/-- Python `int(x)` on a `safeformat` argument. -/
def pyToInt : PyVal → Option Int
  | .int n => some n
  | .str s => parseIntString s

/-- Character class of the `hex` converter regex `^[a-fA-F\d]*$`. -/
def isHexChar (c : Char) : Bool :=
  c.isDigit || (97 ≤ c.toNat && c.toNat ≤ 102) || (65 ≤ c.toNat && c.toNat ≤ 70)

/-- Character class `\w` (ASCII): letters, digits, underscore. -/
def isWordChar (c : Char) : Bool :=
  c.isAlphanum || c = '_'

/-- Character class of the `ident` converter regex `^[-\w]*$`. -/
def isIdentChar (c : Char) : Bool :=
  isWordChar c || c = '-'

/-- Wrapping in apostrophes (kept out of the source text as an
escape), as the `%s` quoting in the `ConversionError` messages. -/
def pyQuote (s : String) : String := "\x27" ++ s ++ "\x27"

/-- The `ConversionError` message raised when a converter rejects its
argument. -/
def convErrMsg (arg : PyVal) (typ : String) : String :=
  "Argument " ++ pyQuote (pyStr arg) ++ " not of type " ++ pyQuote typ ++ "."

/-- Converter lookup and application of `safeformat` (util.py lines
158-175 and 195-205): `int` applies Python `int` and substitutes its
decimal form, `hex`/`ident` validate `str(x)` against their character
classes, `str` substitutes `str(x)` unconditionally; an unregistered
type name is a `ConversionError` (`converters[typ]` raising
`KeyError`). -/
def applyConv (typ : String) (arg : PyVal) : Except String String :=
  match typ with
  | "int" =>
    match pyToInt arg with
    | some n => .ok (toString n)
    | none => .error (convErrMsg arg "int")
  | "hex" =>
    if (pyStr arg).data.all isHexChar then .ok (pyStr arg)
    else .error (convErrMsg arg "hex")
  | "str" => .ok (pyStr arg)
  | "ident" =>
    if (pyStr arg).data.all isIdentChar then .ok (pyStr arg)
    else .error (convErrMsg arg "ident")
  | _ => .error ("Invalid converter/type: " ++ pyQuote typ ++ ".")

/-- One attempted match of the `safeformat` template regex
`{(?:(?P<idx>\d+))?:(?P<typ>\w+)}` at the head of the input: on
success, the optional explicit index, the type name, and the input
after the closing brace.  Greedy digit and word runs are deterministic
here since `:` and the closing brace are outside both classes. -/
def scanSpec (cs : List Char) : Option (Option Nat × String × List Char) :=
  match cs with
  | '{' :: rest =>
    match rest.dropWhile Char.isDigit with
    | ':' :: r2 =>
      match r2.dropWhile isWordChar with
      | '}' :: r4 =>
        if (r2.takeWhile isWordChar).isEmpty then none
        else some
          ((if (rest.takeWhile Char.isDigit).isEmpty then none
            else some (digitsToNat (rest.takeWhile Char.isDigit))),
           String.mk (r2.takeWhile isWordChar), r4)
      | _ => none
    | _ => none
  | _ => none

/-- The `re.sub` scan of `safeformat`: left-to-right, non-overlapping;
characters outside matches are copied, each match is replaced by the
converted argument, with the implicit argument counter advanced only on
occurrences with omitted index; any replacement failure aborts the
whole call with a `ConversionError` message.  The fuel argument only
bounds the recursion; every step consumes at least one character, so
`safeformat` below supplies enough for the fallback arm to be
unreachable. -/
def subScan : Nat → List Char → List PyVal → Nat → String → Except String String
  | _, [], _, _, acc => .ok acc
  | 0, c :: cs, _, _, acc => .ok (acc ++ String.mk (c :: cs))
  | fuel + 1, c :: cs, args, counter, acc =>
    match scanSpec (c :: cs) with
    | some (idxOpt, typ, rest) =>
      match idxOpt with
      | some i =>
        match args.get? i with
        | none => .error ("Index out of bounds: " ++ toString i ++ ".")
        | some arg =>
          match applyConv typ arg with
          | .ok s => subScan fuel rest args counter (acc ++ s)
          | .error e => .error e
      | none =>
        match args.get? counter with
        | none => .error ("Index out of bounds: " ++ toString counter ++ ".")
        | some arg =>
          match applyConv typ arg with
          | .ok s => subScan fuel rest args (counter + 1) (acc ++ s)
          | .error e => .error e
    | none => subScan fuel cs args counter (acc.push c)

/-- The `safeformat` function of util.py lines 133-207. -/
def safeformat (fmt : String) (args : List PyVal) : Except String String :=
  subScan fmt.length fmt.data args 0 ""

/-- Declared character class of each converter type: what a
successfully substituted segment is guaranteed to satisfy. -/
def convClassOK (typ : String) (out : String) : Prop :=
  (typ = "hex" → out.data.all isHexChar)
  ∧ (typ = "ident" → out.data.all isIdentChar)
  ∧ (typ = "int" → ∃ n : Int, out = toString n)

/-- C7: `safeformat` resolves explicit indices directly, advances the
implicit counter only on occurrences with omitted index, validates each
argument against the declared type, substitutes the conversion on
success and fails with a conversion error otherwise:
`safeformat("{:hex}", "ab2e") = "ab2e"`, `safeformat("{:hex}", "zz")`
fails with the conversion error, `safeformat("{1:str} {0:int}", 7, "x")
= "x 7"` (and the docstring's mixed-index example reuses argument 0);
and every successfully substituted segment satisfies the declared
character class. -/
theorem safeformat_spec :
    safeformat "{:hex}" [.str "ab2e"] = .ok "ab2e"
    ∧ safeformat "{:hex}" [.str "zz"] = .error (convErrMsg (.str "zz") "hex")
    ∧ safeformat "{1:str} {0:int}" [.int 7, .str "x"] = .ok "x 7"
    ∧ safeformat "{:hex}. item: {0:str}" [.int 13] = .ok "13. item: 13"
    ∧ ∀ (typ : String) (arg : PyVal) (out : String),
        applyConv typ arg = .ok out → convClassOK typ out := by
  refine ⟨rfl, rfl, rfl, rfl, fun typ arg out h => ?_⟩
  unfold applyConv at h
  split at h
  · -- typ = "int"
    refine ⟨fun hx => by simp_all, fun hx => by simp_all, fun _ => ?_⟩
    split at h
    next n heq =>
      simp only [Except.ok.injEq] at h
      exact ⟨n, h.symm⟩
    · exact absurd h (by simp)
  · -- typ = "hex"
    refine ⟨fun _ => ?_, fun hx => by simp_all, fun hx => by simp_all⟩
    split at h
    next hall =>
      simp only [Except.ok.injEq] at h
      exact h ▸ hall
    · exact absurd h (by simp)
  · -- typ = "str"
    exact ⟨fun hx => by simp_all, fun hx => by simp_all, fun hx => by simp_all⟩
  · -- typ = "ident"
    refine ⟨fun hx => by simp_all, fun _ => ?_, fun hx => by simp_all⟩
    split at h
    next hall =>
      simp only [Except.ok.injEq] at h
      exact h ▸ hall
    · exact absurd h (by simp)
  · -- unregistered type name
    exact absurd h (by simp)

/-- Witness for C7: the guarantee applied at the concrete conversion of
`"ab2e"` through the `hex` converter. -/
theorem safeformat_spec_witness : convClassOK "hex" "ab2e" :=
  safeformat_spec.2.2.2.2 "hex" (.str "ab2e") "ab2e" rfl

/-- Python `x[0]` on a parsed JSON value: first element of a list,
first character of a string, `IndexError` when empty, `KeyError` on a
dict (JSON object keys are strings, so integer lookup misses), and
`TypeError` on non-subscriptable values. -/
def pyIndex0 (j : Json) : Except Failure Json :=
  match j with
  | .arr (v :: _) => .ok v
  | .arr [] => .error .indexError
  | .str s =>
    match s.data with
    | c :: _ => .ok (.str (String.mk [c]))
    | [] => .error .indexError
  | .obj _ => .error .keyError
  | _ => .error .typeError

/-- Python `int(id)` on a parsed JSON value: identity on integers,
0/1 on booleans (`bool` subclasses `int`), string parsing with
`ValueError` on a non-numeric string, and `TypeError` on the remaining
shapes. -/
def pyIntJson (j : Json) : Except Failure Int :=
  match j with
  | .num n => .ok n
  | .bool b => .ok (if b then 1 else 0)
  | .str s =>
    match parseIntString s with
    | some n => .ok n
    | none => .error .valueError
  | _ => .error .typeError

/-- The legacy-batch tail of `_extract_id_from_batch_response`:
`id = r[names][0]` followed by `int(id)`. -/
def extractFromPlural (plural : Json) : Except Failure Int :=
  match pyIndex0 plural with
  | .ok v => pyIntJson v
  | .error f => .error f

/-- The error taken from the legacy-batch branch:
`r['errors'][0]['desc']` raised as `GeneralException(desc)` (with the
Python defaults `context="Error"`, `code=Codes.CONFLICT`); the
unguarded subscripts surface as untyped failures. -/
def extractBatchError (errs : Json) : Except Failure Int :=
  match pyIndex0 errs with
  | .ok e0 =>
    match e0 with
    | .obj _ =>
      match jget e0 "desc" with
      | some d => .error (.typed (mkGeneral d (.str "Error") Codes.CONFLICT))
      | none => .error .keyError
    | _ => .error .typeError
  | .error f => .error f

/-- The `Vingd._extract_id_from_batch_response` static method
(client.py lines 110-123): when the pluralized field name
(`name + "s"`) is present the response is treated as the legacy batch
shape (raising `GeneralException` from the first error's description
when a truthy `errors` entry is present, otherwise taking the first
element of the pluralized list); otherwise the singular field is taken
(`KeyError` when absent); either way the result is coerced with
`int(id)`. -/
def extract_id (r : Json) (name : String) : Except Failure Int :=
  match jget r (name ++ "s") with
  | some plural =>
    match jget r "errors" with
    | some errs =>
      if jtruthy errs then extractBatchError errs
      else extractFromPlural plural
    | none => extractFromPlural plural
  | none =>
    match jget r name with
    | some v => pyIntJson v
    | none => .error .keyError

/-- C8: the identifier shim returns 42 on `{"oids":[42],"errors":[]}`
with field `oid`, returns the integer 42 on `{"oid":"42"}`, and fails
with a generic error whose message is `"bad"` on
`{"oids":[],"errors":[{"desc":"bad"}]}`; in general a present
pluralized field selects the legacy-batch branch (generic error from
the first error's description when the errors list is non-empty, else
the first element of the pluralized list), an absent one selects the
singular field, and both branches coerce the result with `int`,
failing with an untyped type/value error when coercion is
impossible. -/
theorem extract_id_spec :
    extract_id (Json.obj [("oids", Json.arr [Json.num 42]), ("errors", Json.arr [])]) "oid"
      = .ok 42
    ∧ extract_id (Json.obj [("oid", Json.str "42")]) "oid" = .ok 42
    ∧ extract_id (Json.obj
        [("oids", Json.arr []), ("errors", Json.arr [Json.obj [("desc", Json.str "bad")]])]) "oid"
      = .error (.typed (mkGeneral (Json.str "bad") (Json.str "Error") Codes.CONFLICT))
    ∧ (∀ (r : Json) (name : String) (plural e0 : Json) (rest : List Json) (d : Json),
        jget r (name ++ "s") = some plural →
        jget r "errors" = some (Json.arr (e0 :: rest)) →
        jget e0 "desc" = some d →
        extract_id r name = .error (.typed (mkGeneral d (.str "Error") Codes.CONFLICT)))
    ∧ (∀ (r : Json) (name : String) (v : Json) (rest : List Json),
        jget r (name ++ "s") = some (Json.arr (v :: rest)) →
        (jget r "errors" = none
          ∨ ∃ errs, jget r "errors" = some errs ∧ jtruthy errs = false) →
        extract_id r name = pyIntJson v)
    ∧ (∀ (r : Json) (name : String) (v : Json),
        jget r (name ++ "s") = none → jget r name = some v →
        extract_id r name = pyIntJson v)
    ∧ (∀ (v : Json) (f : Failure), pyIntJson v = .error f →
        f = .typeError ∨ f = .valueError) := by
  refine ⟨rfl, rfl, rfl, fun r name plural e0 rest d hp he hd => ?_,
    fun r name v rest hp he => ?_, fun r name v hp hv => ?_, fun v f h => ?_⟩
  · have he0 : jtruthy (Json.arr (e0 :: rest)) = true := by simp [jtruthy]
    have hdesc : extractBatchError (Json.arr (e0 :: rest))
        = .error (.typed (mkGeneral d (.str "Error") Codes.CONFLICT)) := by
      unfold extractBatchError pyIndex0
      match e0, hd with
      | .obj fields, hd => simp only [hd]
    simp only [extract_id, hp, he, he0, if_true, hdesc]
  · rcases he with he | ⟨errs, he, hfalse⟩
    · simp only [extract_id, hp, he, extractFromPlural, pyIndex0]
    · simp only [extract_id, hp, he, hfalse, Bool.false_eq_true, if_false,
        extractFromPlural, pyIndex0]
  · simp only [extract_id, hp, hv]
  · cases v with
    | num n => exact absurd h (by simp [pyIntJson])
    | bool b => exact absurd h (by simp [pyIntJson])
    | null => exact Or.inl (by simpa [pyIntJson] using h.symm)
    | arr l => exact Or.inl (by simpa [pyIntJson] using h.symm)
    | obj f2 => exact Or.inl (by simpa [pyIntJson] using h.symm)
    | str s =>
      simp only [pyIntJson] at h
      rcases hps : parseIntString s with _ | n <;> rw [hps] at h
      · exact Or.inr (by simpa using h.symm)
      · exact absurd h (by simp)

/-- Witness for C8: the singular-field branch applied at the concrete
response `{"oid": 5}`. -/
theorem extract_id_spec_witness :
    extract_id (Json.obj [("oid", Json.num 5)]) "oid" = pyIntJson (Json.num 5) :=
  extract_id_spec.2.2.2.2.2.1 (Json.obj [("oid", Json.num 5)]) "oid" (Json.num 5) rfl rfl

/-- C10: when the pluralized field is present and maps to an empty list
while `errors` is absent or empty, the shim neither returns an
identifier nor raises a typed library error: the unguarded `r[names][0]`
fails with the untyped `IndexError`. -/
theorem extract_id_empty_plural_untyped (r : Json) (name : String)
    (hp : jget r (name ++ "s") = some (Json.arr []))
    (he : jget r "errors" = none ∨ jget r "errors" = some (Json.arr [])) :
    extract_id r name = .error .indexError
    ∧ Failure.isTyped .indexError = false := by
  refine ⟨?_, rfl⟩
  rcases he with he | he
  · simp only [extract_id, hp, he, extractFromPlural, pyIndex0]
  · simp only [extract_id, hp, he, jtruthy, List.isEmpty_nil, Bool.not_true,
      Bool.false_eq_true, if_false, extractFromPlural, pyIndex0]

/-- Witness for C10: the empty legacy batch response
`{"oids": [], "errors": []}`. -/
theorem extract_id_empty_plural_untyped_witness :
    extract_id (Json.obj [("oids", Json.arr []), ("errors", Json.arr [])]) "oid"
      = .error .indexError
    ∧ Failure.isTyped .indexError = false :=
  extract_id_empty_plural_untyped
    (Json.obj [("oids", Json.arr []), ("errors", Json.arr [])]) "oid" rfl (Or.inr rfl)

/-- One string-valued optional filter of a resource path
(`if x: resource += seg % x` with `%s` formatting): appended only when
the Python value is truthy (set and non-empty). -/
def addStrSeg (r : String) (seg : String) (v : Option String) : String :=
  match v with
  | some s => if s = "" then r else r ++ seg ++ s
  | none => r

/-- One numeric optional filter of a resource path
(`if x: resource += seg % int(x)`): appended only when the Python value
is truthy (set and non-zero), formatted with `%d`. -/
def addIntSeg (r : String) (seg : String) (v : Option Int) : String :=
  match v with
  | some n => if n = 0 then r else r ++ seg ++ toString n
  | none => r

/-- The resource path built by `Vingd.get_vouchers` (client.py lines
707-715): base `"vouchers"`, then in this fixed order `vid_encoded`
(bare), `from=`, `to=`, `gid=`, `valid_after=`, `valid_before=`,
`first=`, `last=` — each appended only when its value is truthy. -/
def get_vouchers_resource (vid_encoded : Option String) (uid_from uid_to : Option Int)
    (gid : Option String) (valid_after valid_before : Option String)
    (first last : Option Int) : String :=
  addIntSeg
    (addIntSeg
      (addStrSeg
        (addStrSeg
          (addStrSeg
            (addIntSeg
              (addIntSeg
                (addStrSeg "vouchers" "/" vid_encoded)
                "/from=" uid_from)
              "/to=" uid_to)
            "/gid=" gid)
          "/valid_after=" valid_after)
        "/valid_before=" valid_before)
      "/first=" first)
    "/last=" last

/-- C9: voucher path building keeps the fixed per-operation filter
order and appends a segment only when its value is present, a numeric 0
and an unset value both counting as not present: with filters
`uid_from=0, gid="g1"` the result is `"vouchers/gid=g1"`, a 0-valued
numeric filter builds the same path as an unset one, and an
all-present call lays the segments out in the fixed order. -/
theorem get_vouchers_resource_spec :
    get_vouchers_resource none (some 0) none (some "g1") none none none none
      = "vouchers/gid=g1"
    ∧ (∀ (v : Option String) (uf ut : Option Int) (g va vb : Option String)
          (f l : Option Int),
        get_vouchers_resource v (some 0) ut g va vb f l
          = get_vouchers_resource v none ut g va vb f l
        ∧ get_vouchers_resource v uf (some 0) g va vb f l
          = get_vouchers_resource v uf none g va vb f l
        ∧ get_vouchers_resource v uf ut g va vb (some 0) l
          = get_vouchers_resource v uf ut g va vb none l
        ∧ get_vouchers_resource v uf ut g va vb f (some 0)
          = get_vouchers_resource v uf ut g va vb f none)
    ∧ get_vouchers_resource (some "V1") (some 10) (some 20) (some "g1")
        (some "A1") (some "B1") (some 1) (some 2)
      = "vouchers/V1/from=10/to=20/gid=g1/valid_after=A1/valid_before=B1/first=1/last=2" := by
  refine ⟨rfl, fun v uf ut g va vb f l => ?_, rfl⟩
  refine ⟨?_, ?_, ?_, ?_⟩ <;> simp [get_vouchers_resource, addIntSeg]
